import Mathlib

/-!
Verification development for the `jupyterhub-ldap-authenticator` repository
(single source file `ldapauthenticator/ldapauthenticator.py`).

The Python code is shallowly embedded below.  Directory I/O (the ldap3
library) is abstracted into a `World` record that fixes the responses the
directory would give during one authentication attempt; everything else is
translated statement by statement from the Python source.  All definitions
are structural recursions, so concrete runs reduce inside the kernel.
-/

/-! ## Python string primitives

The source uses `str.strip`, `str.lower`, `str.split`, `str.format` and
`ldap3.utils.conv.escape_filter_chars`.  These are modelled here on
`List Char` so that every operation is a structural recursion.  ASCII
behaviour is modelled; the repository only handles ASCII configuration
strings and DNs.
-/

/-- Whitespace characters removed by Python `str.strip()` and used by
`str.split()` with no argument: space, tab, newline, carriage return,
vertical tab, form feed. -/
def isPyWs (c : Char) : Bool :=
  c == ' ' || c == '\t' || c == '\n' || c == '\r' ||
  c == Char.ofNat 11 || c == Char.ofNat 12

/-- Python `str.strip()`: drop leading and trailing whitespace. -/
def pyStrip (s : String) : String :=
  ⟨((s.data.dropWhile isPyWs).reverse.dropWhile isPyWs).reverse⟩

/-- Python `str.lower` on one character (ASCII range). -/
def pyLowerChar (c : Char) : Char :=
  if 65 ≤ c.toNat ∧ c.toNat ≤ 90 then Char.ofNat (c.toNat + 32) else c

/-- Python `str.lower()` (ASCII range). -/
def pyLower (s : String) : String :=
  ⟨s.data.map pyLowerChar⟩

/-- Replace every occurrence of `pat` in the third argument by `val`,
scanning left to right.  The `Nat` argument is a step budget; each step
consumes at least one character, so a budget of the length of the input
is exact.  Models Python `str.replace` and single-placeholder
`str.format`. -/
def substFuel (pat val : List Char) : Nat → List Char → List Char
  | 0, l => l
  | _ + 1, [] => []
  | fuel + 1, c :: cs =>
      if pat ≠ [] ∧ pat.isPrefixOf (c :: cs) then
        val ++ substFuel pat val fuel (List.drop pat.length (c :: cs))
      else
        c :: substFuel pat val fuel cs

/-- Python `template.format(name=value)` for a template that uses a single
named placeholder (the only uses in the source are `{username}` and
`{group}`): every occurrence of `pat` in `s` is replaced by `val`. -/
def pyFormat1 (s pat val : String) : String :=
  ⟨substFuel pat.data val.data s.data.length s.data⟩

/-- Python `str.split()` with no argument: split on whitespace runs,
discarding empty fragments.  First argument accumulates the current
fragment in reverse. -/
def splitWsAux : List Char → List Char → List String
  | acc, [] => if acc.isEmpty then [] else [⟨acc.reverse⟩]
  | acc, c :: cs =>
      if isPyWs c then
        if acc.isEmpty then splitWsAux [] cs
        else ⟨acc.reverse⟩ :: splitWsAux [] cs
      else splitWsAux (c :: acc) cs

/-- Python `str.split()` with no argument. -/
def pySplitWs (s : String) : List String :=
  splitWsAux [] s.data

/-- Split on a separator, keeping empty fragments (Python `str.split(sep)`
for non-empty `sep`).  The `Nat` argument is a step budget as in
`substFuel`; the first list accumulates the current fragment in reverse. -/
def splitSepFuel (sep : List Char) : Nat → List Char → List Char → List (List Char)
  | 0, acc, l => [acc.reverse ++ l]
  | _ + 1, acc, [] => [acc.reverse]
  | fuel + 1, acc, c :: cs =>
      if sep ≠ [] ∧ sep.isPrefixOf (c :: cs) then
        acc.reverse :: splitSepFuel sep fuel [] (List.drop sep.length (c :: cs))
      else
        splitSepFuel sep fuel (c :: acc) cs

/-- Python `s.split(sep)` for a non-empty separator. -/
def pySplitSep (s sep : String) : List String :=
  (splitSepFuel sep.data (s.data.length + 1) [] s.data).map fun l => ⟨l⟩

/-- Python `list(set(xs))`: deduplicate.  The order of a Python set is
unspecified; first-occurrence order is fixed here as the representative. -/
def dedupFirst : List String → List String
  | [] => []
  | x :: xs => x :: (dedupFirst xs).filter fun y => !(y == x)

/-- Python `list(set(a).intersection(b))`: the members of `a` that occur in
`b`, deduplicated (set order modelled as first occurrence). -/
def pySetIntersection (a b : List String) : List String :=
  (dedupFirst a).filter fun x => b.contains x

/-! ## Regular expressions

`validate_username` calls `self.username_regex.match(username)` where the
pattern comes from `re.compile` on the configured `username_pattern`.
Regular expressions are embedded as a datatype with Brzozowski-derivative
matching.  Python `re.match` anchors only at the start: it succeeds iff
some prefix of the string matches the pattern; `reFullMatch` is the
whole-string notion the specification text appeals to. -/

inductive RE where
  | emp : RE
  | eps : RE
  | chr : Char → RE
  | alt : RE → RE → RE
  | cat : RE → RE → RE
  | star : RE → RE
deriving DecidableEq, Repr

/-- Whether the regular expression accepts the empty string. -/
def RE.nullable : RE → Bool
  | .emp => false
  | .eps => true
  | .chr _ => false
  | .alt r s => r.nullable || s.nullable
  | .cat r s => r.nullable && s.nullable
  | .star _ => true

/-- Brzozowski derivative with respect to one character. -/
def RE.reDeriv (a : Char) : RE → RE
  | .emp => .emp
  | .eps => .emp
  | .chr c => if a = c then .eps else .emp
  | .alt r s => .alt (r.reDeriv a) (s.reDeriv a)
  | .cat r s =>
      if r.nullable then .alt (.cat (r.reDeriv a) s) (s.reDeriv a)
      else .cat (r.reDeriv a) s
  | .star r => .cat (r.reDeriv a) (.star r)

/-- The pattern matches the entire string (Python `re.fullmatch`; the
notion the specification words "fully match" denote). -/
def reFullMatch (r : RE) : List Char → Bool
  | [] => r.nullable
  | c :: cs => reFullMatch (r.reDeriv c) cs

/-- Python `re.match`: the pattern matches at the start of the string,
i.e. some prefix of the string is in the pattern language. -/
def rePrefixMatch (r : RE) : List Char → Bool
  | [] => r.nullable
  | c :: cs => r.nullable || rePrefixMatch (r.reDeriv c) cs

/-! ## `normalize_username` and `validate_username` (source lines 299 to 324) -/

/-- One character of `ldap3.utils.conv.escape_filter_chars` (RFC 4515
escaping).  The library applies sequential `str.replace` calls for
backslash, asterisk, parentheses and NUL, in that order; since no
replacement string contains a later target character, the net effect is
this per-character expansion. -/
def escChar (c : Char) : List Char :=
  if c == '\\' then ['\\', '5', 'c']
  else if c == '*' then ['\\', '2', 'a']
  else if c == '(' then ['\\', '2', '8']
  else if c == ')' then ['\\', '2', '9']
  else if c == Char.ofNat 0 then ['\\', '0', '0']
  else [c]

/-- `ldap3.utils.conv.escape_filter_chars`. -/
def escape_filter_chars (s : String) : String :=
  ⟨(s.data.map escChar).flatten⟩

/-- `normalize_username`: lowercase, then escape filter characters. -/
def normalize_username (s : String) : String :=
  escape_filter_chars (pyLower s)

/-- `validate_username`: reject `/`, reject the empty string, accept when
no pattern is configured, otherwise `bool(self.username_regex.match(u))`
(Python `re.match`, a prefix match). -/
def validate_username (username_regex : Option RE) (username : String) : Bool :=
  if username.data.contains '/' then false
  else if username == "" then false
  else
    match username_regex with
    | none => true
    | some r => rePrefixMatch r username.data

/-! ## `validate_host` (source lines 326 to 346)

The three anchored regular expressions of `validate_host` are decision
procedures on simple textual shapes; they are implemented directly.  All
three patterns are anchored with both a caret and a dollar in the source,
so they test the entire string. -/

/-- One octet of the dotted-quad pattern: `[0-9]`, `[1-9][0-9]`,
`1[0-9][0-9]`, `2[0-4][0-9]` or `25[0-5]`. -/
def ipOctetOk : List Char → Bool
  | [a] => a.isDigit
  | [a, b] => ('1' ≤ a && a ≤ '9') && b.isDigit
  | [a, b, c] =>
      (a == '1' && b.isDigit && c.isDigit) ||
      (a == '2' && ('0' ≤ b && b ≤ '4') && c.isDigit) ||
      (a == '2' && b == '5' && ('0' ≤ c && c ≤ '5'))
  | _ => false

/-- `host_ip_regex`: exactly four octets joined by dots. -/
def validIpv4 (host : String) : Bool :=
  let parts := pySplitSep host "."
  parts.length == 4 && parts.all fun p => ipOctetOk p.data

/-- A character allowed inside a hostname label: `[a-z0-9-]`. -/
def hostLabelChar (c : Char) : Bool :=
  ('a' ≤ c && c ≤ 'z') || c.isDigit || c == '-'

/-- One hostname label: 1 to 63 characters of `[a-z0-9-]`, no leading or
trailing hyphen (the lookarounds `(?!-)` and `(?<!-)`). -/
def labelOk : List Char → Bool
  | [] => false
  | c :: cs =>
      decide ((c :: cs).length ≤ 63) && (c :: cs).all hostLabelChar &&
      !(c == '-') && !((c :: cs).getLastD 'a' == '-')

/-- `host_name_regex`: two or more dot-joined labels. -/
def validHostname (host : String) : Bool :=
  let parts := pySplitSep host "."
  decide (2 ≤ parts.length) && parts.all fun p => labelOk p.data

/-- `host_url_regex`: `ldap://` or `ldaps://`, a multi-label hostname, a
colon, and exactly three digits. -/
def validHostUrl (host : String) : Bool :=
  let rest :=
    if ("ldap://".data).isPrefixOf host.data then some ⟨host.data.drop 7⟩
    else if ("ldaps://".data).isPrefixOf host.data then some ⟨host.data.drop 8⟩
    else none
  match rest with
  | none => false
  | some r =>
      match pySplitSep r ":" with
      | [h, p] => validHostname h && decide (p.data.length = 3) && p.data.all Char.isDigit
      | _ => false

/-- `validate_host`: IPv4 dotted quad, or hostname, or `scheme://host:port`
URL; anything else is rejected. -/
def validate_host (host : String) : Bool :=
  if validIpv4 host then true
  else if validHostname host then true
  else if validHostUrl host then true
  else false

/-! ## Data model

Configuration fields consumed by `authenticate`, the inbound credentials,
and the abstracted directory (`World`).  `server_hosts`, `allowed_groups`,
`server_pool_active` and `server_pool_exhaust` are traitlets `Union`
types in the source; the shapes the claims exercise are modelled
(`allowed_groups` as a list of DNs, which is the documented shape). -/

/-- A traitlets `Union([List(), Unicode()])` value. -/
inductive StrOrList where
  | str : String → StrOrList
  | list : List String → StrOrList
deriving DecidableEq, Repr

/-- A traitlets `Union([Bool(), Int()])` value. -/
inductive BoolOrInt where
  | bool : Bool → BoolOrInt
  | int : Int → BoolOrInt
deriving DecidableEq, Repr

/-- The configuration surface read by the authentication core. -/
structure Config where
  server_hosts : StrOrList
  server_port : Option Int
  server_use_ssl : Bool
  server_connect_timeout : Option Int
  server_receive_timeout : Option Int
  server_pool_strategy : String
  server_pool_active : BoolOrInt
  server_pool_exhaust : BoolOrInt
  bind_user_dn : Option String
  bind_user_password : Option String
  user_search_base : String
  user_search_filter : String
  filter_by_group : Bool
  user_membership_attribute : String
  group_search_base : String
  group_search_filter : String
  allowed_groups : List String
  allow_nested_groups : Bool
  username_regex : Option RE
deriving DecidableEq, Repr

/-- The `data` dictionary handed to `authenticate` by JupyterHub.  A null
password (`password is None`) is modelled as `none`. -/
structure Credentials where
  username : String
  password : Option String
deriving DecidableEq, Repr

/-- One entry of `conn.response` for the user search.  `hasAttributes`
models whether the `attributes` key is present; `memberships` is the value
of the configured membership attribute (absent modelled as the empty
list, which is also how a missing attribute presents through ldap3). -/
structure SearchEntry where
  dn : String
  hasAttributes : Bool
  memberships : List String
deriving DecidableEq, Repr

/-- The directory as seen during one authentication attempt: whether
`ldap3.Connection` construction succeeds (a caught `LDAPBindError` gives
`none` in `ldap_connection`), whether the service `conn.bind()` succeeds,
the responses to group and user searches as functions of search base and
formatted filter, and whether the final rebind as a given DN with a given
password succeeds. -/
structure World where
  connectOk : Bool
  bindOk : Bool
  groupSearch : String → String → List String
  userSearch : String → String → List SearchEntry
  rebindOk : String → String → Bool

/-- A Python exception escaping `authenticate`, or unbounded recursion. -/
inductive PyError where
  | nameError : PyError
  | recursionError : PyError
deriving DecidableEq, Repr

/-- Network operations performed during one authentication attempt, in
order.  `nestedSearch g` stands for the cascade of searches
`get_nested_groups` performs for seed group `g`. -/
inductive NetEvent where
  | connect : String → NetEvent
  | serviceBind : NetEvent
  | nestedSearch : String → NetEvent
  | search : String → String → NetEvent
  | rebind : String → String → NetEvent
  | unbind : NetEvent
deriving DecidableEq, Repr

/-- Result of one `authenticate` call: the outcome (`Except.ok (some u)`
accepted, `Except.ok none` the REJECTED `None`, `Except.error` an escaped
exception), the I/O trace, whether a connection object was obtained and
whether `conn.unbind()` ran before returning, and the configuration
object as it stands after the call. -/
structure AuthResult where
  outcome : Except PyError (Option String)
  events : List NetEvent
  connOpened : Bool
  connReleased : Bool
  cfgAfter : Config
deriving Repr

/-! ## `get_nested_groups` (source lines 392 to 407)

The Python method recurses into every DN returned by the group search with
no visited set; only the final `list(set(...))` deduplicates.  The
embedding indexes the recursion by a depth budget: `none` means the budget
was exhausted, so `(∀ fuel, ... = none)` states that the Python recursion
never bottoms out (a `RecursionError`).  `Nat.rec` keeps every concrete
run kernel-reducible. -/

/-- The loop body of `get_nested_groups`: for each `nested_group` in
`conn.response`, append its dn, recurse, and append the recursive result.
`recurse` is the recursive call at the next depth; its `none` (budget
exhausted) aborts the whole traversal. -/
def gngList (recurse : String → Option (List String)) : List String → Option (List String)
  | [] => some []
  | dn :: rest =>
      match recurse dn with
      | none => none
      | some gs =>
          match gngList recurse rest with
          | none => none
          | some tail => some (dn :: (gs ++ tail))

/-- One level of `get_nested_groups`: search with the formatted group
filter, traverse the response, deduplicate. -/
def gngBody (world : World) (gbase gfilter : String)
    (recurse : String → Option (List String)) (group : String) : Option (List String) :=
  let response := world.groupSearch gbase (pyFormat1 gfilter "{group}" group)
  match gngList recurse response with
  | none => none
  | some l => some (dedupFirst l)

/-- `get_nested_groups(conn, group)` at a given recursion-depth budget. -/
def getNestedGroups (world : World) (gbase gfilter : String) (fuel : Nat) :
    String → Option (List String) :=
  Nat.rec (motive := fun _ => String → Option (List String))
    (fun _ => none) (fun _ recurse => gngBody world gbase gfilter recurse) fuel

/-! ## The permitted-groups block of `authenticate` (source lines 479 to 484)

```
permitted_groups = copy.deepcopy(self.allowed_groups)
if self.allow_nested_groups:
    for group in self.allowed_groups:
        nested_groups = self.get_nested_groups(conn, group)
    permitted_groups.extend(nested_groups)
```

The `extend` is indented at the level of the `for`, not of its body: the
loop runs `get_nested_groups` once per seed but `nested_groups` retains
only the value of the last iteration, and with an empty seed list the name
`nested_groups` is never bound, so the `extend` raises `NameError`. -/

/-- The `for` loop: run `get_nested_groups` on every seed in order; the
accumulator is the current value of the local `nested_groups` (`none`
while unbound).  A budget-exhausted recursion is a `RecursionError`. -/
def nestedLoopLast (world : World) (gbase gfilter : String) (fuel : Nat) :
    List String → Option (List String) → Except PyError (Option (List String))
  | [], last => .ok last
  | g :: rest, _ =>
      match getNestedGroups world gbase gfilter fuel g with
      | none => .error PyError.recursionError
      | some ng => nestedLoopLast world gbase gfilter fuel rest (some ng)

/-- The whole permitted-groups block. -/
def compilePermittedGroups (allowNested : Bool) (allowed : List String)
    (world : World) (gbase gfilter : String) (fuel : Nat) : Except PyError (List String) :=
  if allowNested then
    match nestedLoopLast world gbase gfilter fuel allowed none with
    | .error e => .error e
    | .ok none => .error PyError.nameError
    | .ok (some ng) => .ok (allowed ++ ng)
  else .ok allowed

/-! ## `authenticate` (source lines 410 to 567) -/

/-- Models `not v or v.strip() == ''` for an `Optional[str]` value. -/
def blankOptStr : Option String → Bool
  | none => true
  | some s => s == "" || pyStrip s == ""

/-- Models `not v or v.strip() == ''` for a plain string value. -/
def blankStr (s : String) : Bool :=
  s == "" || pyStrip s == ""

/-- The cast at source lines 429 to 430: a string-valued `server_hosts` is
split on whitespace; a list is kept as is. -/
def castHosts : StrOrList → List String
  | .str s => pySplitWs s
  | .list l => l

/-- The host loop (source lines 433 to 440): strip and lowercase each
host; on the first invalid host `break` (drop the remainder); valid hosts
populate the pool. -/
def buildPool : List String → List String
  | [] => []
  | h :: rest =>
      let hh := pyLower (pyStrip h)
      if !(validate_host hh) then []
      else hh :: buildPool rest

/-- The second disjunct of the dn guard at source line 517 is
`search_response['dn'].strip == ''`: `strip` is not called, so a bound
method object is compared with `==` to a string, which in Python is always
`False`. -/
def dnStripMethodEqEmptyStr (_dn : String) : Bool := false

/-- The dn guard: `not search_response['dn'] or search_response['dn'].strip == ''`. -/
def dnGuardRejects (dn : String) : Bool :=
  (dn == "") || dnStripMethodEqEmptyStr dn

/-- The searching and binding part of `authenticate`, from the
permitted-groups block onward (source lines 479 to 567).  At entry a
connection is open and service-bound; `events` holds the trace so far. -/
def authSearch (cfg : Config) (world : World) (fuel : Nat)
    (username password : String) (events : List NetEvent) : AuthResult :=
  let events := events ++
    (if cfg.allow_nested_groups then cfg.allowed_groups.map NetEvent.nestedSearch else [])
  match compilePermittedGroups cfg.allow_nested_groups cfg.allowed_groups world
      cfg.group_search_base cfg.group_search_filter fuel with
  | .error e => ⟨.error e, events, true, false, cfg⟩
  | .ok permitted_groups =>
    let auth_user_search_filter := pyFormat1 cfg.user_search_filter "{username}" username
    let events := events ++ [NetEvent.search cfg.user_search_base auth_user_search_filter]
    match (world.userSearch cfg.user_search_base auth_user_search_filter).take 2 with
    | [] =>
        -- `not conn.response`: zero results; return None, no unbind
        ⟨.ok none, events, true, false, cfg⟩
    | first :: rest =>
        if !first.hasAttributes then
          -- `'attributes' not in conn.response[0].keys()`: return None, no unbind
          ⟨.ok none, events, true, false, cfg⟩
        else if 1 < (first :: rest).length then
          -- `len(conn.response) > 1`: return None, no unbind
          ⟨.ok none, events, true, false, cfg⟩
        else
          if dnGuardRejects first.dn then
            ⟨.ok none, events ++ [NetEvent.unbind], true, true, cfg⟩
          else
            match first.memberships with
            | [] =>
                -- `if not search_response['attributes'][attr]`: unbind, None
                ⟨.ok none, events ++ [NetEvent.unbind], true, true, cfg⟩
            | m :: ms =>
                let allowed_memberships := pySetIntersection (m :: ms) permitted_groups
                if !allowed_memberships.isEmpty || !cfg.filter_by_group then
                  let events := events ++
                    [NetEvent.rebind first.dn password, NetEvent.unbind]
                  if !(world.rebindOk first.dn password) then
                    ⟨.ok none, events, true, true, cfg⟩
                  else
                    ⟨.ok (some username), events, true, true, cfg⟩
                else
                  -- not a member of any permitted group: return None, no unbind
                  ⟨.ok none, events, true, false, cfg⟩

/-- The pool, configuration and connection part of `authenticate` (source
lines 428 to 477); `cfg.server_hosts` has already been cast to a list. -/
def authConn (cfg : Config) (world : World) (fuel : Nat)
    (username password : String) : AuthResult :=
  let server_pool := buildPool (castHosts cfg.server_hosts)
  if server_pool.length < 1 then ⟨.ok none, [], false, false, cfg⟩
  else if blankOptStr cfg.bind_user_dn then ⟨.ok none, [], false, false, cfg⟩
  else if blankOptStr cfg.bind_user_password then ⟨.ok none, [], false, false, cfg⟩
  else if blankStr cfg.user_search_base then ⟨.ok none, [], false, false, cfg⟩
  else if blankStr cfg.user_search_filter then ⟨.ok none, [], false, false, cfg⟩
  else
    let events := [NetEvent.connect (cfg.bind_user_dn.getD "")]
    if !world.connectOk then
      -- `ldap_connection` caught an LDAPBindError and returned None
      ⟨.ok none, events, false, false, cfg⟩
    else
      let events := events ++ [NetEvent.serviceBind]
      if !world.bindOk then
        -- `not conn.bind()`: return None (no unbind)
        ⟨.ok none, events, true, false, cfg⟩
      else
        authSearch cfg world fuel username password events

/-- `authenticate(self, handler, data)`.  `fuel` is the recursion-depth
budget threaded to `get_nested_groups`. -/
def authenticate (cfg : Config) (world : World) (fuel : Nat) (data : Credentials) : AuthResult :=
  let username := normalize_username data.username
  if !(validate_username cfg.username_regex username) then
    ⟨.ok none, [], false, false, cfg⟩
  else
    match data.password with
    | none => ⟨.ok none, [], false, false, cfg⟩
    | some password =>
        if pyStrip password == "" then ⟨.ok none, [], false, false, cfg⟩
        else
          -- cast server_hosts to list: this writes back into the configuration
          let cfg := {cfg with server_hosts := StrOrList.list (castHosts cfg.server_hosts)}
          authConn cfg world fuel username password

/-! ## Concrete scenarios

A baseline configuration and directory used across the theorems below,
with variants per claim. -/

/-- A well-formed baseline configuration (one valid host URL, service bind
credentials, user search settings, one allowed group, nesting off, no
username pattern). -/
def cfgBase : Config where
  server_hosts := .list ["ldap://dc1.example.com:389"]
  server_port := none
  server_use_ssl := false
  server_connect_timeout := none
  server_receive_timeout := none
  server_pool_strategy := "FIRST"
  server_pool_active := .bool true
  server_pool_exhaust := .bool false
  bind_user_dn := some "cn=admin,dc=example,dc=com"
  bind_user_password := some "adminpw"
  user_search_base := "ou=users,dc=example,dc=com"
  user_search_filter := "(uid={username})"
  filter_by_group := true
  user_membership_attribute := "memberOf"
  group_search_base := "ou=groups,dc=example,dc=com"
  group_search_filter := "(member={group})"
  allowed_groups := ["cn=eng,ou=groups,dc=example,dc=com"]
  allow_nested_groups := false
  username_regex := none

/-- A directory that connects and service-binds fine, answers every search
with no entries, and accepts any rebind. -/
def worldBase : World where
  connectOk := true
  bindOk := true
  groupSearch := fun _ _ => []
  userSearch := fun _ _ => []
  rebindOk := fun _ _ => true

/-- Baseline credentials. -/
def dataBase : Credentials := ⟨"alice", some "secret"⟩

/-- Nesting enabled with two seed groups whose nested expansions are
disjoint: seed `cn=a` nests `cn=na`, seed `cn=b` nests `cn=nb`. -/
def worldNest : World :=
  { worldBase with groupSearch := fun _ filt =>
      if filt == "(member=cn=a,ou=groups,dc=example,dc=com)" then
        ["cn=na,ou=groups,dc=example,dc=com"]
      else if filt == "(member=cn=b,ou=groups,dc=example,dc=com)" then
        ["cn=nb,ou=groups,dc=example,dc=com"]
      else [] }

/-- A two-cycle in the group graph: expanding `cn=a` discovers `cn=b` and
expanding `cn=b` discovers `cn=a`. -/
def worldCycle : World :=
  { worldBase with groupSearch := fun _ filt =>
      if filt == "(member=cn=a,ou=groups,dc=example,dc=com)" then
        ["cn=b,ou=groups,dc=example,dc=com"]
      else if filt == "(member=cn=b,ou=groups,dc=example,dc=com)" then
        ["cn=a,ou=groups,dc=example,dc=com"]
      else [] }

/-- Group filtering disabled. -/
def cfgNoFilter : Config := {cfgBase with filter_by_group := false}

/-- Nesting enabled with an empty allow-list. -/
def cfgNested : Config := {cfgBase with allow_nested_groups := true, allowed_groups := []}

/-- `server_hosts` configured as a single whitespace-delimited string. -/
def cfgStrHosts : Config := {cfgBase with server_hosts := .str "ldap://dc1.example.com:389"}

/-- User search finds exactly one record whose membership attribute is
empty. -/
def worldEmptyMem : World :=
  { worldBase with userSearch := fun _ _ =>
      [⟨"uid=alice,ou=users,dc=example,dc=com", true, []⟩] }

/-- User search finds exactly one record with a non-empty membership
attribute (not intersecting the allow-list, which does not matter when
filtering is off). -/
def worldSomeMem : World :=
  { worldBase with userSearch := fun _ _ =>
      [⟨"uid=alice,ou=users,dc=example,dc=com", true, ["cn=other,ou=groups,dc=example,dc=com"]⟩] }

/-- User search finds exactly one record, with the given dn, carrying a
membership inside the baseline allow-list. -/
def worldWithDn (dn : String) : World :=
  { worldBase with userSearch := fun _ _ =>
      [⟨dn, true, ["cn=eng,ou=groups,dc=example,dc=com"]⟩] }

/-! ## Helper lemmas -/

/-- Python lowercasing is idempotent on characters. -/
theorem pyLowerChar_idem (c : Char) : pyLowerChar (pyLowerChar c) = pyLowerChar c := by
  unfold pyLowerChar
  by_cases h : 65 ≤ c.toNat ∧ c.toNat ≤ 90
  · rw [if_pos h]
    obtain ⟨h1, h2⟩ := h
    set n := c.toNat with hn
    interval_cases n <;> decide
  · rw [if_neg h, if_neg h]

/-- Escaping is the identity on a string of characters that `escChar`
leaves alone. -/
theorem flatten_map_escChar_id (l : List Char) (h : ∀ c ∈ l, escChar c = [c]) :
    (l.map escChar).flatten = l := by
  induction l with
  | nil => rfl
  | cons c cs ih =>
      simp only [List.map, List.flatten]
      rw [h c (by simp), ih (fun x hx => h x (by simp [hx]))]
      rfl

/-- Python lowercasing is idempotent on strings. -/
theorem pyLower_idem (s : String) : pyLower (pyLower s) = pyLower s := by
  unfold pyLower
  congr 1
  rw [List.map_map]
  exact List.map_congr_left fun a _ => pyLowerChar_idem a

/-- The accepting run of `authenticate`: when the credentials validate,
the pool and configuration checks pass, the connection service-binds, the
permitted-group compilation completes, the user search finds exactly one
well-formed record with a non-empty membership attribute, the
membership condition holds (non-empty intersection or filtering
disabled), and the rebind as the found dn succeeds, the call accepts the
normalized username, the trace contains the rebind as that dn, and the
connection is released. -/
theorem auth_accepts (cfg : Config) (world : World) (fuel : Nat) (data : Credentials)
    (p : String) (entry : SearchEntry) (perm : List String)
    (h2 : validate_username cfg.username_regex (normalize_username data.username) = true)
    (h3 : data.password = some p)
    (h4 : pyStrip p ≠ "")
    (h5 : buildPool (castHosts cfg.server_hosts) ≠ [])
    (h6 : blankOptStr cfg.bind_user_dn = false)
    (h7 : blankOptStr cfg.bind_user_password = false)
    (h8 : blankStr cfg.user_search_base = false)
    (h9 : blankStr cfg.user_search_filter = false)
    (h10 : world.connectOk = true)
    (h11 : world.bindOk = true)
    (h12 : compilePermittedGroups cfg.allow_nested_groups cfg.allowed_groups world
        cfg.group_search_base cfg.group_search_filter fuel = .ok perm)
    (h13 : (world.userSearch cfg.user_search_base
        (pyFormat1 cfg.user_search_filter "{username}" (normalize_username data.username))).take 2
        = [entry])
    (h14 : entry.hasAttributes = true)
    (h15 : entry.dn ≠ "")
    (h16 : entry.memberships ≠ [])
    (h18 : pySetIntersection entry.memberships perm ≠ [] ∨ cfg.filter_by_group = false)
    (h17 : world.rebindOk entry.dn p = true) :
    (authenticate cfg world fuel data).outcome =
        Except.ok (some (normalize_username data.username)) ∧
    NetEvent.rebind entry.dn p ∈ (authenticate cfg world fuel data).events ∧
    (authenticate cfg world fuel data).connReleased = true := by
  have h4' : (pyStrip p == "") = false := beq_eq_false_iff_ne.mpr h4
  have h5' : ¬((buildPool (castHosts cfg.server_hosts)).length < 1) := by
    simpa [Nat.lt_one_iff, List.length_eq_zero] using h5
  have h15' : (entry.dn == "") = false := beq_eq_false_iff_ne.mpr h15
  obtain ⟨m, ms, hm⟩ := List.exists_cons_of_ne_nil h16
  have hresult : authenticate cfg world fuel data =
      authSearch {cfg with server_hosts := StrOrList.list (castHosts cfg.server_hosts)}
        world fuel (normalize_username data.username) p
        [NetEvent.connect (cfg.bind_user_dn.getD ""), NetEvent.serviceBind] := by
    unfold authenticate
    rw [h3]
    simp only [h2, Bool.not_true, if_false, Bool.false_eq_true, h4']
    unfold authConn
    have hc : ∀ l, castHosts (StrOrList.list l) = l := fun _ => rfl
    simp only [hc]
    rw [if_neg h5']
    simp only [h6, h7, h8, h9, if_false, Bool.false_eq_true, h10, h11, Bool.not_true]
    rfl
  rw [hresult]
  unfold authSearch
  simp only [h12]
  rw [h13]
  simp only [h14, Bool.not_true, if_false, Bool.false_eq_true, List.length_cons,
    List.length_nil, dnGuardRejects, dnStripMethodEqEmptyStr, h15', Bool.or_false,
    Nat.lt_irrefl, hm]
  have h18' : (!(pySetIntersection (m :: ms) perm).isEmpty || !cfg.filter_by_group) = true := by
    rcases h18 with h | h
    · rw [hm] at h
      have : (pySetIntersection (m :: ms) perm).isEmpty = false := by
        cases hq : pySetIntersection (m :: ms) perm with
        | nil => exact absurd hq h
        | cons a as => rfl
      simp [this]
    · simp [h]
  simp only [h18', if_true, h17, Bool.not_true, if_false, Bool.false_eq_true]
  refine ⟨trivial, ?_, trivial⟩
  simp [List.mem_append]

/-- `authSearch` never writes the configuration. -/
theorem authSearch_cfgAfter (cfg : Config) (world : World) (fuel : Nat)
    (u p : String) (e : List NetEvent) : (authSearch cfg world fuel u p e).cfgAfter = cfg := by
  unfold authSearch
  repeat first | rfl | split | dsimp only

/-- `authConn` never writes the configuration. -/
theorem authConn_cfgAfter (cfg : Config) (world : World) (fuel : Nat)
    (u p : String) : (authConn cfg world fuel u p).cfgAfter = cfg := by
  unfold authConn
  repeat first | rfl | apply authSearch_cfgAfter | split | dsimp only

/-! ## Claim theorems -/

/-- C1: the claim says every seed group's resolved nested groups are
unioned into the permitted-group set.  In the code the
`permitted_groups.extend(nested_groups)` sits outside the `for` loop, so
only the last seed's expansion is appended: with seeds `cn=a` and `cn=b`,
where expanding `cn=a` yields `cn=na` and expanding `cn=b` yields
`cn=nb`, the permitted set is the allow-list plus `cn=nb` only, although
`get_nested_groups` on `cn=a` does return `cn=na`. -/
theorem c1_permitted_groups_extend_only_last_seed :
    compilePermittedGroups true
        ["cn=a,ou=groups,dc=example,dc=com", "cn=b,ou=groups,dc=example,dc=com"]
        worldNest "ou=groups,dc=example,dc=com" "(member={group})" 3 =
      Except.ok ["cn=a,ou=groups,dc=example,dc=com", "cn=b,ou=groups,dc=example,dc=com",
        "cn=nb,ou=groups,dc=example,dc=com"] ∧
    getNestedGroups worldNest "ou=groups,dc=example,dc=com" "(member={group})" 3
        "cn=a,ou=groups,dc=example,dc=com" =
      some ["cn=na,ou=groups,dc=example,dc=com"] ∧
    "cn=na,ou=groups,dc=example,dc=com" ∉
      (["cn=a,ou=groups,dc=example,dc=com", "cn=b,ou=groups,dc=example,dc=com",
        "cn=nb,ou=groups,dc=example,dc=com"] : List String) :=
  ⟨rfl, rfl, by decide⟩

/-- C2: the claim says `get_nested_groups` terminates on a cyclic group
graph.  On the two-cycle `cn=a` lists `cn=b` and `cn=b` lists `cn=a` the
recursion exhausts every depth budget (for both starting points), i.e.
the Python recursion never returns: there is no visited set, so the call
recurses until `RecursionError`. -/
theorem c2_nested_groups_cycle_never_terminates (fuel : Nat) :
    getNestedGroups worldCycle "ou=groups,dc=example,dc=com" "(member={group})" fuel
      "cn=a,ou=groups,dc=example,dc=com" = none ∧
    getNestedGroups worldCycle "ou=groups,dc=example,dc=com" "(member={group})" fuel
      "cn=b,ou=groups,dc=example,dc=com" = none := by
  induction fuel with
  | zero => exact ⟨rfl, rfl⟩
  | succ f ih =>
      refine ⟨?_, ?_⟩
      · show gngBody worldCycle "ou=groups,dc=example,dc=com" "(member={group})"
          (getNestedGroups worldCycle "ou=groups,dc=example,dc=com" "(member={group})" f)
          "cn=a,ou=groups,dc=example,dc=com" = none
        unfold gngBody
        rw [show worldCycle.groupSearch "ou=groups,dc=example,dc=com"
              (pyFormat1 "(member={group})" "{group}" "cn=a,ou=groups,dc=example,dc=com")
            = ["cn=b,ou=groups,dc=example,dc=com"] from rfl]
        simp only [gngList, ih.2]
      · show gngBody worldCycle "ou=groups,dc=example,dc=com" "(member={group})"
          (getNestedGroups worldCycle "ou=groups,dc=example,dc=com" "(member={group})" f)
          "cn=b,ou=groups,dc=example,dc=com" = none
        unfold gngBody
        rw [show worldCycle.groupSearch "ou=groups,dc=example,dc=com"
              (pyFormat1 "(member={group})" "{group}" "cn=b,ou=groups,dc=example,dc=com")
            = ["cn=a,ou=groups,dc=example,dc=com"] from rfl]
        simp only [gngList, ih.1]

/-- C3 counterexample: with group filtering disabled, a unique search
result and a directory that would accept any rebind, `authenticate`
still returns the rejection `None` because the record's membership
attribute is empty: the membership-attribute check at source line 528
runs regardless of `filter_by_group`. -/
theorem c3_filter_disabled_empty_membership_rejected :
    cfgNoFilter.filter_by_group = false ∧
    (worldEmptyMem.userSearch "ou=users,dc=example,dc=com" "(uid=alice)").length = 1 ∧
    worldEmptyMem.rebindOk "uid=alice,ou=users,dc=example,dc=com" "secret" = true ∧
    (authenticate cfgNoFilter worldEmptyMem 1 dataBase).outcome = Except.ok none :=
  ⟨rfl, rfl, rfl, rfl⟩

/-- C3 (amended): with group filtering disabled, `authenticate` accepts a
user found by a unique, unambiguous search result whenever the final
user bind succeeds, provided additionally that the record's dn is
non-empty, its membership attribute value is non-empty, and the
permitted-group compilation completes; a unique record whose membership
attribute is empty or absent is rejected even though filtering is
disabled. -/
theorem c3_filter_disabled_accepts_nonempty_membership
    (cfg : Config) (world : World) (fuel : Nat) (data : Credentials)
    (p : String) (entry : SearchEntry) (perm : List String)
    (h1 : cfg.filter_by_group = false)
    (h2 : validate_username cfg.username_regex (normalize_username data.username) = true)
    (h3 : data.password = some p)
    (h4 : pyStrip p ≠ "")
    (h5 : buildPool (castHosts cfg.server_hosts) ≠ [])
    (h6 : blankOptStr cfg.bind_user_dn = false)
    (h7 : blankOptStr cfg.bind_user_password = false)
    (h8 : blankStr cfg.user_search_base = false)
    (h9 : blankStr cfg.user_search_filter = false)
    (h10 : world.connectOk = true)
    (h11 : world.bindOk = true)
    (h12 : compilePermittedGroups cfg.allow_nested_groups cfg.allowed_groups world
        cfg.group_search_base cfg.group_search_filter fuel = .ok perm)
    (h13 : (world.userSearch cfg.user_search_base
        (pyFormat1 cfg.user_search_filter "{username}" (normalize_username data.username))).take 2
        = [entry])
    (h14 : entry.hasAttributes = true)
    (h15 : entry.dn ≠ "")
    (h16 : entry.memberships ≠ [])
    (h17 : world.rebindOk entry.dn p = true) :
    (authenticate cfg world fuel data).outcome =
      Except.ok (some (normalize_username data.username)) :=
  (auth_accepts cfg world fuel data p entry perm h2 h3 h4 h5 h6 h7 h8 h9 h10 h11 h12
    h13 h14 h15 h16 (Or.inr h1) h17).1

/-- C3 witness: a concrete run with filtering disabled, one record whose
membership attribute is non-empty but disjoint from the allow-list, and
a succeeding rebind, accepted as `alice`. -/
theorem c3_filter_disabled_accepts_witness :
    (authenticate cfgNoFilter worldSomeMem 1 dataBase).outcome =
      Except.ok (some "alice") :=
  c3_filter_disabled_accepts_nonempty_membership cfgNoFilter worldSomeMem 1 dataBase
    "secret" ⟨"uid=alice,ou=users,dc=example,dc=com", true,
      ["cn=other,ou=groups,dc=example,dc=com"]⟩
    ["cn=eng,ou=groups,dc=example,dc=com"]
    rfl rfl rfl (by decide) (by decide) rfl rfl rfl rfl rfl rfl rfl rfl rfl
    (by decide) (by decide) rfl

/-- C4: a rejected exit reached after the connection was opened and
service-bound — here the user search returning zero results — returns
`None` without releasing the connection: `return None` at source lines
500 to 509 (and the failed-membership branch at 562 to 564) has no
`conn.unbind()`. -/
theorem c4_zero_results_connection_not_released :
    (authenticate cfgBase worldBase 1 dataBase).outcome = Except.ok none ∧
    (authenticate cfgBase worldBase 1 dataBase).connOpened = true ∧
    (authenticate cfgBase worldBase 1 dataBase).connReleased = false :=
  ⟨rfl, rfl, rfl⟩

/-- C5 counterexample: with pattern `a`, the username `ab` is accepted by
`validate_username` although the entire username does not match the
pattern — Python `re.match` anchors only at the start. -/
theorem c5_prefix_match_accepted_without_full_match :
    validate_username (some (RE.chr 'a')) "ab" = true ∧
    reFullMatch (RE.chr 'a') "ab".data = false := by
  decide

/-- C5 (amended): `validate_username` returns true exactly when the
username contains no slash, is non-empty, and — when a pattern is
configured — the pattern matches at the start of the username (a prefix
match, Python `re.match`), not necessarily the entire username; with no
pattern configured every non-empty, slash-free username is accepted. -/
theorem c5_validate_username_characterization (ro : Option RE) (u : String) :
    validate_username ro u = true ↔
      (u.data.contains '/' = false ∧ u ≠ "" ∧
        ∀ r, ro = some r → rePrefixMatch r u.data = true) := by
  unfold validate_username
  cases hc : u.data.contains '/' with
  | true => simp [hc]
  | false =>
      cases he : (u == "") with
      | true =>
          have hu : u = "" := by simpa using he
          simp [hc, he, hu]
      | false =>
          have hne : u ≠ "" := by simpa using he
          cases ro with
          | none => simp [hc, he, hne]
          | some r => simp [hc, he, hne]

/-- C6 counterexample: normalization is not idempotent: `*` normalizes to
the escape `\2a`, whose own normalization escapes the backslash again. -/
theorem c6_normalize_not_idempotent_on_star :
    normalize_username (normalize_username "*") ≠ normalize_username "*" := by
  decide

/-- C6 (amended): `normalize_username` is idempotent on every input
whose lowercase form contains no LDAP-filter special character
(backslash, asterisk, parentheses, NUL); on inputs containing one,
idempotence fails because the escaping pass escapes its own output. -/
theorem c6_normalize_idempotent_without_special_chars (s : String)
    (h : ∀ c ∈ (pyLower s).data, escChar c = [c]) :
    normalize_username (normalize_username s) = normalize_username s := by
  have hfix : normalize_username s = pyLower s := by
    unfold normalize_username escape_filter_chars
    rw [flatten_map_escChar_id _ h]
  calc normalize_username (normalize_username s)
      = escape_filter_chars (pyLower (pyLower s)) := by rw [hfix]; rfl
    _ = escape_filter_chars (pyLower s) := by rw [pyLower_idem]
    _ = normalize_username s := rfl

/-- C6 witness: idempotence at the special-character-free input `abc`. -/
theorem c6_normalize_idempotent_witness :
    normalize_username (normalize_username "abc") = normalize_username "abc" :=
  c6_normalize_idempotent_without_special_chars "abc" (by decide)

/-- C7: a credentials record whose password is null (absent) or
whitespace-only is rejected with no network event: no connection
attempt, no search, no bind; the check at source lines 424 to 426 runs
before any I/O. -/
theorem c7_blank_password_rejected_without_io
    (cfg : Config) (world : World) (fuel : Nat) (data : Credentials)
    (h : data.password = none ∨ ∃ p, data.password = some p ∧ pyStrip p = "") :
    (authenticate cfg world fuel data).outcome = Except.ok none ∧
    (authenticate cfg world fuel data).events = [] ∧
    (authenticate cfg world fuel data).connOpened = false := by
  unfold authenticate
  cases hv : validate_username cfg.username_regex (normalize_username data.username) with
  | false => simp [hv]
  | true =>
      simp only [hv, Bool.not_true, Bool.false_eq_true, if_false]
      rcases h with h | ⟨p, hp, hps⟩
      · rw [h]
        exact ⟨rfl, rfl, rfl⟩
      · rw [hp]
        simp [hps]

/-- C7 witness: a whitespace-only password is rejected with an empty
trace. -/
theorem c7_blank_password_witness :
    (authenticate cfgBase worldBase 0 ⟨"alice", some "   "⟩).outcome = Except.ok none ∧
    (authenticate cfgBase worldBase 0 ⟨"alice", some "   "⟩).events = [] ∧
    (authenticate cfgBase worldBase 0 ⟨"alice", some "   "⟩).connOpened = false :=
  c7_blank_password_rejected_without_io cfgBase worldBase 0 ⟨"alice", some "   "⟩
    (Or.inr ⟨"   ", rfl, by decide⟩)

/-- C8: the claim says every internal error is converted to the rejection
outcome.  With nested expansion enabled and an empty allow-list the
`for` loop body never runs, the local `nested_groups` is never bound,
and the `extend` raises `NameError`, which escapes `authenticate`. -/
theorem c8_empty_allowlist_nested_raises_name_error :
    (authenticate cfgNested worldBase 1 dataBase).outcome =
      Except.error PyError.nameError :=
  rfl

/-- C9 counterexample: with `server_hosts` configured as a string,
`authenticate` rewrites that configuration field in place (source lines
429 to 430), so the configuration differs after the call. -/
theorem c9_authenticate_mutates_server_hosts :
    (authenticate cfgStrHosts worldBase 1 dataBase).cfgAfter ≠ cfgStrHosts ∧
    (authenticate cfgStrHosts worldBase 1 dataBase).cfgAfter.server_hosts =
      StrOrList.list ["ldap://dc1.example.com:389"] :=
  ⟨by decide, rfl⟩

/-- C9 (amended): `authenticate` leaves every configuration field
unchanged except `server_hosts`, which — once the run gets past the
credential checks — is replaced by its whitespace-split list form when
it was configured as a string (a no-op when already a list). -/
theorem c9_config_frame_except_server_hosts
    (cfg : Config) (world : World) (fuel : Nat) (data : Credentials) :
    (authenticate cfg world fuel data).cfgAfter = cfg ∨
    (authenticate cfg world fuel data).cfgAfter =
      {cfg with server_hosts := StrOrList.list (castHosts cfg.server_hosts)} := by
  unfold authenticate
  repeat
    first
    | exact Or.inl rfl
    | exact Or.inr (authConn_cfgAfter _ _ _ _ _)
    | split
    | dsimp only

/-- C10: the dn guard tests only truthiness: the second disjunct compares
the unapplied `strip` method to the empty string and is always false, so
every non-empty dn — a whitespace-only one included — passes the guard
and is used verbatim as the identity of the final user bind. -/
theorem c10_dn_guard_truthiness_and_verbatim_bind (dn : String) (h : dn ≠ "") :
    dnGuardRejects dn = false ∧
    NetEvent.rebind dn "secret" ∈ (authenticate cfgBase (worldWithDn dn) 1 dataBase).events := by
  constructor
  · simp [dnGuardRejects, dnStripMethodEqEmptyStr, beq_eq_false_iff_ne.mpr h]
  · exact (auth_accepts cfgBase (worldWithDn dn) 1 dataBase "secret"
      ⟨dn, true, ["cn=eng,ou=groups,dc=example,dc=com"]⟩
      ["cn=eng,ou=groups,dc=example,dc=com"]
      rfl rfl (by decide) (by decide) rfl rfl rfl rfl rfl rfl rfl rfl rfl h
      (by simp)
      (Or.inl (show pySetIntersection ["cn=eng,ou=groups,dc=example,dc=com"]
        ["cn=eng,ou=groups,dc=example,dc=com"] ≠ [] by decide))
      rfl).2.1

/-- C10 witness: a whitespace-only dn passes the guard and is bound
verbatim. -/
theorem c10_whitespace_dn_witness :
    dnGuardRejects " " = false ∧
    NetEvent.rebind " " "secret" ∈ (authenticate cfgBase (worldWithDn " ") 1 dataBase).events :=
  c10_dn_guard_truthiness_and_verbatim_bind " " (by decide)
